import Mathlib

/-!
# Verification of the PasaTanda Session & Routing Engine

A shallow embedding, in Lean 4, of the core of the PasaTanda conversational
backend: the Supabase-backed session store (`SupabaseSessionService`), the
message-deduplication cache of the WhatsApp boundary, and the orchestrator
(`AdkOrchestratorService`) with its rule-based intent classifier.

Conventions of the embedding:

* TypeScript strings are Lean `String`; the JavaScript regular-expression
  tests used by the classifier are modelled by executable functions on
  `List Char` (substring tests, anchored tests, and "a.*b" tests in which
  the dot does not cross a line terminator, as in JavaScript without the
  dotall flag).
* JavaScript `Map` objects and plain-object state bags are association
  lists in insertion order; `Map.set` / property assignment replace the
  value in place for an existing key and append for a new key, exactly as
  in the runtime.
* Millisecond timestamps are `Int`, passed explicitly where the source
  reads a clock.
* JSON values stored in session state are modelled by `JsVal`; the
  distinguished `JsVal.undef` models JavaScript `undefined`, which
  `JSON.stringify` drops from serialized objects.
* Fallible backend calls are modelled by an explicit success flag per
  call; the service methods catch every backend failure internally, which
  in the embedding shows up as the methods being total functions that do
  not return in an error monad.
-/

namespace PasaTanda

/-! ## String utilities modelling JavaScript string and regex operations -/

/-- `listStartsWith s p` is true when the pattern `p` occurs at the head of `s`. -/
def listStartsWith : List Char → List Char → Bool
  | _, [] => true
  | [], _ :: _ => false
  | c :: cs, p :: ps => c == p && listStartsWith cs ps

/-- `listContains s p` is true when the pattern `p` occurs somewhere inside `s`. -/
def listContains : List Char → List Char → Bool
  | [], p => listStartsWith [] p
  | c :: cs, p => listStartsWith (c :: cs) p || listContains cs p

/-- `s.startsWith(p)` on JavaScript strings. -/
def strStartsWith (s p : String) : Bool :=
  listStartsWith s.data p.data

/-- `s.includes(p)`: the substring test performed by a regex of plain literals. -/
def strContains (s p : String) : Bool :=
  listContains s.data p.data

/-- ASCII lower-casing of one character, as `toLowerCase` acts on ASCII input. -/
def lowerChar (c : Char) : Char :=
  if 'A' ≤ c ∧ c ≤ 'Z' then Char.ofNat (c.toNat + 32) else c

/-- `s.toLowerCase()` restricted to its ASCII action (all classifier inputs the
claims exercise are ASCII or already lower-case). -/
def jsToLower (s : String) : String :=
  ⟨s.data.map lowerChar⟩

/-- `phone.replace(/\D/g, "")`: keep exactly the ASCII digits. -/
def normalizePhone (phone : String) : String :=
  ⟨phone.data.filter Char.isDigit⟩

/-- JavaScript line terminators, which `.` in a regex does not match. -/
def isLineTerm (c : Char) : Bool :=
  c == '\n' || c == '\r' || c == Char.ofNat 0x2028 || c == Char.ofNat 0x2029

/-- Split a character list at line terminators. -/
def splitLines : List Char → List (List Char)
  | [] => [[]]
  | c :: cs =>
    let r := splitLines cs
    if isLineTerm c then [] :: r
    else
      match r with
      | [] => [[c]]
      | l :: ls => (c :: l) :: ls

/-- The remainder of `s` just past its first occurrence of `pat`, if any. -/
def dropAfterFirst (pat : List Char) : List Char → Option (List Char)
  | [] => if listStartsWith [] pat then some [] else none
  | c :: cs =>
    if listStartsWith (c :: cs) pat then some ((c :: cs).drop pat.length)
    else dropAfterFirst pat cs

/-- Inside a single line, `a` occurs and `b` occurs after the end of that
occurrence of `a`. -/
def containsThenL (line a b : List Char) : Bool :=
  match dropAfterFirst a line with
  | some rest => listContains rest b
  | none => false

/-- The test of a regex `a.*b` (one alternative from `as` then one from `bs`),
where `.` matches anything but a line terminator. -/
def dotStarTest (s : String) (as bs : List String) : Bool :=
  (splitLines s.data).any fun line =>
    as.any fun a => bs.any fun b => containsThenL line a.data b.data

/-- The test of a regex that is an alternation of plain literals. -/
def anyContains (s : String) (pats : List String) : Bool :=
  pats.any fun p => strContains s p

/-! ## JSON-ish values and state mappings -/

/-- Values held in session state and event deltas.  `undef` models the
JavaScript `undefined` value (dropped by `JSON.stringify`). -/
inductive JsVal where
  | str (s : String)
  | num (n : Int)
  | boolean (b : Bool)
  | nullv
  | undef
deriving DecidableEq, Repr

/-- A state mapping: string keys to values, in insertion order. -/
abbrev StateMap := List (String × JsVal)

/-- JavaScript `Map.set` / object property assignment: replace in place when
the key is present, append otherwise. -/
def mapSet {α : Type} (m : List (String × α)) (k : String) (v : α) :
    List (String × α) :=
  if m.any (fun kv => kv.1 == k) then
    m.map fun kv => if kv.1 == k then (k, v) else kv
  else m ++ [(k, v)]

/-- JavaScript `Map.get`. -/
def mapGet {α : Type} (m : List (String × α)) (k : String) : Option α :=
  (m.find? fun kv => kv.1 == k).map (·.2)

/-- JavaScript `Map.delete`. -/
def mapDelete {α : Type} (m : List (String × α)) (k : String) :
    List (String × α) :=
  m.filter fun kv => !(kv.1 == k)

/-- `key.startsWith("temp:")`: membership in the ephemeral namespace. -/
def isTempKey (k : String) : Bool :=
  strStartsWith k "temp:"

/-- `stripTempState` from `SupabaseSessionService`: drop every entry whose key
lies in the ephemeral namespace, keeping the rest in order. -/
def stripTempState (state : StateMap) : StateMap :=
  state.filter fun kv => !isTempKey kv.1

/-- Apply a state delta onto a state, entry by entry, with JavaScript object
assignment semantics. -/
def applyDelta (m delta : StateMap) : StateMap :=
  delta.foldl (fun acc kv => mapSet acc kv.1 kv.2) m

/-- `JSON.stringify` of a state object: entries whose value is `undefined`
are dropped. -/
def jsonState (m : StateMap) : StateMap :=
  m.filter fun kv => !(kv.2 == JsVal.undef)

/-! ## The intent classifier (`detectIntent` of `AdkOrchestratorService`) -/

inductive PasatandaIntent where
  | PAY_QUOTA
  | PAYOUT_WINNER
  | CHECK_STATUS
  | CREATE_GROUP
  | ADD_PARTICIPANT
  | CONFIGURE_TANDA
  | START_TANDA
  | UPLOAD_PROOF
  | VERIFY_PHONE
  | GENERAL_HELP
  | UNKNOWN
deriving DecidableEq, Repr

/-- Past a given literal head, the next character is an ASCII digit:
the test of an anchored regex `^pre\d`. -/
def startsWithThenDigit (s pre : List Char) : Bool :=
  match s, pre with
  | c :: _, [] => c.isDigit
  | [], [] => false
  | [], _ :: _ => false
  | c :: cs, p :: ps => c == p && startsWithThenDigit cs ps

/-- The actions recognised inside a `tanda:<action>:<id>` control token,
in the alternation order of the source regex. -/
def tandaActions : List String :=
  ["configure", "status", "add_participant", "start"]

/-- The test `/^tanda:(configure|status|add_participant|start):\d+/`. -/
def tandaTokenTest (lm : String) : Bool :=
  tandaActions.any fun a =>
    startsWithThenDigit lm.data ("tanda:" ++ a ++ ":").data

/-- The capture of `/^tanda:(configure|status|add_participant|start):/`:
the first alternative that matches at the head of the string. -/
def tandaAction (lm : String) : Option String :=
  tandaActions.find? fun a => strStartsWith lm ("tanda:" ++ a ++ ":")

/-- The test `/^invite_(accept|decline):/`. -/
def inviteTokenTest (lm : String) : Bool :=
  strStartsWith lm "invite_accept:" || strStartsWith lm "invite_decline:"

/-- The free-text rules of `detectIntent`, evaluated when no structured
control token decided the intent: first the keyword rules on the lowered
user message, then the fallback rules on the lowered handler response,
in source order. -/
def freeTextRules (lm lr : String) : PasatandaIntent :=
  if anyContains lm ["~*", "otp", "codigo", "código", "pin"] then .VERIFY_PHONE
  else if anyContains lm ["crear", "nueva tanda", "iniciar grupo", "armar"] then .CREATE_GROUP
  else if anyContains lm ["agregar", "invitar", "añadir", "incluir"] then .ADD_PARTICIPANT
  else if anyContains lm ["configurar", "cambiar", "modificar"] then .CONFIGURE_TANDA
  else if anyContains lm ["estado", "cómo va", "info", "ver tanda", "mi turno"] then .CHECK_STATUS
  else if anyContains lm ["pagar", "cuota", "qr"] || dotStarTest lm ["link"] ["pago"] then .PAY_QUOTA
  else if anyContains lm ["comprobante", "voucher", "recibo", "pagué"] then .UPLOAD_PROOF
  else if anyContains lm ["ayuda", "cómo funciona", "qué puedo"] then .GENERAL_HELP
  else if anyContains lm ["desplegar", "activar"] || dotStarTest lm ["iniciar"] ["tanda"] then .START_TANDA
  else if dotStarTest lr ["grupo"] ["creado"] || dotStarTest lr ["tanda"] ["creada"] then .CREATE_GROUP
  else if dotStarTest lr ["telefono", "teléfono", "codigo", "código"] ["verificado", "validado"] then .VERIFY_PHONE
  else if anyContains lr ["payment"] || dotStarTest lr ["link"] ["pago"] || dotStarTest lr ["qr"] ["generado"] then .PAY_QUOTA
  else if anyContains lr ["verificado", "comprobante"] then .UPLOAD_PROOF
  else .UNKNOWN

/-- `detectIntent(userMessage, agentResponse)`: lower-case both texts, test
the structured control tokens first, then the free-text rule chain. -/
def detectIntent (userMessage agentResponse : String) : PasatandaIntent :=
  let lm := jsToLower userMessage
  let lr := jsToLower agentResponse
  if inviteTokenTest lm then .CREATE_GROUP
  else if tandaTokenTest lm then
    match tandaAction lm with
    | some a =>
      if a == "configure" then .CONFIGURE_TANDA
      else if a == "status" then .CHECK_STATUS
      else if a == "add_participant" then .ADD_PARTICIPANT
      else if a == "start" then .START_TANDA
      else freeTextRules lm lr
    | none => freeTextRules lm lr
  else freeTextRules lm lr

/-! ## Sessions, events, and the durable row model -/

/-- An ADK event, as far as the session service consumes it: an author, a
millisecond timestamp, and a state delta. -/
structure Event where
  author : String
  timestamp : Int
  stateDelta : StateMap
deriving DecidableEq, Repr

/-- An ADK session. -/
structure Session where
  id : String
  appName : String
  userId : String
  state : StateMap
  events : List Event
  lastUpdateTime : Int
deriving DecidableEq, Repr

/-- A row of the `adk_sessions` table.  `events` and `state` hold the parsed
form of the stored JSON (the service parses with `parseJson`, which returns
already-structured values unchanged). -/
structure AdkSessionRow where
  session_id : String
  app_name : String
  user_id : String
  events : List Event
  state : StateMap
  last_update_time : Int
  created_at : Int
deriving DecidableEq, Repr

/-- `JSON.stringify` of an event drops `undefined`-valued delta entries. -/
def jsonEvent (e : Event) : Event :=
  { e with stateDelta := jsonState e.stateDelta }

/-- `JSON.stringify` of the event log. -/
def jsonEvents (es : List Event) : List Event :=
  es.map jsonEvent

/-- The service state: the durable `adk_sessions` table and the in-memory
`fallbackSessions` map. -/
structure Store where
  db : List AdkSessionRow
  cache : List (String × Session)
deriving DecidableEq, Repr

/-- `rowToSession`: rebuild a session from a durable row, stripping ephemeral
keys from the stored state. -/
def rowToSession (row : AdkSessionRow) : Session :=
  { id := row.session_id
    appName := row.app_name
    userId := row.user_id
    events := row.events
    state := stripTempState row.state
    lastUpdateTime := row.last_update_time }

/-- The `INSERT ... ON CONFLICT (session_id) DO UPDATE` of `createSession`:
an existing row keeps its `app_name`, `user_id` and `created_at` and has its
`events`, `state` and `last_update_time` replaced; otherwise the new row is
inserted. -/
def upsertRow (db : List AdkSessionRow) (r : AdkSessionRow) :
    List AdkSessionRow :=
  if db.any (fun q => q.session_id == r.session_id) then
    db.map fun q =>
      if q.session_id == r.session_id then
        { q with
            events := r.events
            state := r.state
            last_update_time := r.last_update_time }
      else q
  else db ++ [r]

/-! ## The session service (`SupabaseSessionService`)

Each method takes `enabled` (the value of `supabase.isEnabled()`) and a
`dbFail` flag meaning that the backend query raises on this call; the
method catches that failure internally, so the embedding of each method is
a total function — nothing is propagated to the caller. -/

structure CreateSessionRequest where
  appName : String
  userId : String
  sessionId : Option String
  state : Option StateMap

structure GetSessionConfig where
  numRecentEvents : Option Nat
  afterTimestamp : Option Int

structure GetSessionRequest where
  appName : String
  userId : String
  sessionId : String
  config : Option GetSessionConfig

/-- `createSession`: resolve the id, strip ephemeral keys from the initial
state, best-effort upsert of the durable row, unconditional mirror into the
in-memory map, and return the fresh session. -/
def createSession (enabled dbFail : Bool) (now : Int) (st : Store)
    (req : CreateSessionRequest) : Store × Session :=
  let resolvedSessionId := req.sessionId.getD (req.appName ++ ":" ++ req.userId)
  let initialState := stripTempState (req.state.getD [])
  let session : Session :=
    { id := resolvedSessionId
      appName := req.appName
      userId := req.userId
      state := initialState
      events := []
      lastUpdateTime := now }
  let db1 :=
    if enabled && !dbFail then
      upsertRow st.db
        { session_id := resolvedSessionId
          app_name := req.appName
          user_id := req.userId
          events := jsonEvents session.events
          state := jsonState initialState
          last_update_time := now
          created_at := now }
    else st.db
  ({ db := db1, cache := mapSet st.cache resolvedSessionId session }, session)

/-- The scan of the `afterTimestamp` filter of `applyGetConfig`: walk the
event indices from the end and stop at the first event strictly older than
the bound (the source `while` loop with its `break`). -/
def afterTsIndex (events : List Event) (after : Int) : Option Nat :=
  (List.range events.length).reverse.find? fun i =>
    match events.get? i with
    | some e => decide (e.timestamp < after)
    | none => false

/-- `applyGetConfig`: on a copy of the session, keep only the most recent
`numRecentEvents` events and/or only the events past the last one older
than `afterTimestamp`.  A zero in either field is falsy in the source and
disables the corresponding filter. -/
def applyGetConfig (session : Session) (config : Option GetSessionConfig) :
    Session :=
  match config with
  | none => session
  | some c =>
    let copied := { session with state := session.state, events := session.events }
    let copied :=
      match c.numRecentEvents with
      | some n =>
        if n ≠ 0 then
          { copied with events := copied.events.drop (copied.events.length - n) }
        else copied
      | none => copied
    match c.afterTimestamp with
    | some after =>
      if after ≠ 0 then
        match afterTsIndex copied.events after with
        | some i => { copied with events := copied.events.drop (i + 1) }
        | none => copied
      else copied
    | none => copied

/-- The memory-fallback tail of `getSession`: read the in-memory map and
apply the read-time filter to the cached copy. -/
def fallbackGet (st : Store) (req : GetSessionRequest) :
    Store × Option Session :=
  match mapGet st.cache req.sessionId with
  | some cached => (st, some (applyGetConfig cached req.config))
  | none => (st, none)

/-- `getSession`: when the backend is reachable, select the row by
`(session_id, app_name)`, rebuild and filter it, refresh the in-memory map
with the filtered copy and return it; on a backend failure or a miss, fall
back to the in-memory map. -/
def getSession (enabled dbFail : Bool) (st : Store)
    (req : GetSessionRequest) : Store × Option Session :=
  if enabled && !dbFail then
    match st.db.find? (fun r =>
        r.session_id == req.sessionId && r.app_name == req.appName) with
    | some row =>
      let loadedSession := rowToSession row
      let filteredSession := applyGetConfig loadedSession req.config
      ({ st with cache := mapSet st.cache req.sessionId filteredSession },
        some filteredSession)
    | none => fallbackGet st req
  else fallbackGet st req

/-- A summary returned by `listSessions`: the session with empty state and
empty event log. -/
def summarize (id : String) (s : Session) : Session :=
  { id := id
    appName := s.appName
    userId := s.userId
    state := []
    events := []
    lastUpdateTime := s.lastUpdateTime }

/-- `listSessions`: summaries of the durable rows of `(app_name, user_id)`
ordered by last update, newest first; when that yields nothing, summaries of
the matching in-memory sessions. -/
def listSessions (enabled dbFail : Bool) (st : Store)
    (appName userId : String) : List Session :=
  let fromDb :=
    if enabled && !dbFail then
      ((st.db.filter fun r =>
          r.app_name == appName && r.user_id == userId).mergeSort
        (fun a b => b.last_update_time ≤ a.last_update_time)).map
        fun r => summarize r.session_id (rowToSession r)
    else []
  if fromDb.length == 0 then
    (st.cache.filter fun kv =>
        kv.2.appName == appName && kv.2.userId == userId).map
      fun kv => summarize kv.1 kv.2
  else fromDb

/-- `deleteSession`: best-effort delete of the durable row, unconditional
delete of the in-memory entry. -/
def deleteSession (enabled dbFail : Bool) (st : Store)
    (sessionId : String) : Store :=
  let db1 :=
    if enabled && !dbFail then
      st.db.filter fun r => !(r.session_id == sessionId)
    else st.db
  { db := db1, cache := mapDelete st.cache sessionId }

/-- Modelled from the spec: `BaseSessionService.appendEvent` of the external
agent framework is not part of this repository.  Per the spec, it applies
the event state delta onto the session state with ephemeral
("temp:"-namespaced) keys excluded, and appends the event to the
append-only event log. -/
def baseAppendEvent (s : Session) (e : Event) : Session :=
  { s with
      state := applyDelta s.state (e.stateDelta.filter fun kv => !isTempKey kv.1)
      events := s.events ++ [e] }

/-- The in-memory effect of `appendEvent` on the session object: the base
class applies the delta and appends the event, then `lastUpdateTime` is set
to the event timestamp, then the whole state is defensively re-stripped. -/
def appendEventSession (s : Session) (e : Event) : Session :=
  let s1 := baseAppendEvent s e
  let s2 := { s1 with lastUpdateTime := e.timestamp }
  { s2 with state := stripTempState s2.state }

/-- `appendEvent`: update the session in memory, best-effort `UPDATE` of the
durable row, unconditional mirror into the in-memory map, and return the
event.  The result carries the updated store, the updated session object
and the returned event. -/
def appendEvent (enabled dbFail : Bool) (now : Int) (st : Store)
    (s : Session) (e : Event) : Store × Session × Event :=
  let s2 := appendEventSession s e
  let db1 :=
    if enabled && !dbFail then
      st.db.map fun r =>
        if r.session_id == s2.id then
          { r with
              events := jsonEvents s2.events
              state := jsonState s2.state
              last_update_time := now }
        else r
    else st.db
  ({ db := db1, cache := mapSet st.cache s2.id s2 }, s2, e)

/-! ## The deduplication cache of the WhatsApp boundary -/

/-- The ten-minute TTL of the processed-message cache, in milliseconds. -/
def processedMessageTtlMs : Int := 10 * 60 * 1000

/-- `pruneProcessedMessages(reference)`: evict every entry strictly older
than the TTL. -/
def pruneProcessedMessages (reference : Int)
    (cache : List (String × Int)) : List (String × Int) :=
  cache.filter fun kv => !(decide (reference - kv.2 > processedMessageTtlMs))

/-- `isDuplicateMessage(messageId)` with the clock passed explicitly: a
missing (or falsy empty) id is never a duplicate; otherwise prune, answer
membership, and record a first sighting. -/
def isDuplicateMessage (now : Int) (messageId : Option String)
    (cache : List (String × Int)) : Bool × List (String × Int) :=
  match messageId with
  | none => (false, cache)
  | some mid =>
    if mid == "" then (false, cache)
    else
      let c1 := pruneProcessedMessages now cache
      if c1.any (fun kv => kv.1 == mid) then (true, c1)
      else (false, c1 ++ [(mid, now)])

/-! ## The orchestrator (`AdkOrchestratorService`) -/

/-- The application name constant of the orchestrator. -/
def appName : String := "pasatanda"

structure ReferredProduct where
  catalogId : String
  productRetailerId : String
deriving DecidableEq, Repr

/-- The routing context fields `route` and `buildPrompt` consume. -/
structure RouterMessageContext where
  senderId : String
  senderName : Option String
  groupId : Option String
  originalText : String
  referredProduct : Option ReferredProduct
deriving DecidableEq, Repr

structure OrchestrationResult where
  intent : PasatandaIntent
  responseText : String
  agentUsed : String
  sessionState : Option StateMap
deriving DecidableEq, Repr

/-- An event yielded by the external runner during delegation: its author,
whether it is the final response, and its stringified content. -/
structure RunnerEvent where
  author : String
  isFinal : Bool
  content : String
deriving DecidableEq, Repr

/-- The optional group id as the JavaScript value placed in the initial
state: the string itself, or `undefined` when absent. -/
def jsOptStr : Option String → JsVal
  | some s => JsVal.str s
  | none => JsVal.undef

/-- `buildPrompt`: the original text followed by the bracketed context
lines. -/
def buildPrompt (context : RouterMessageContext) : String :=
  let contextParts :=
    ["[Teléfono del usuario: " ++ context.senderId ++ "]"]
      ++ (match context.groupId with
          | some g => ["[Grupo WhatsApp: " ++ g ++ "]"]
          | none => [])
      ++ (match context.senderName with
          | some n => ["[Nombre WhatsApp: " ++ n ++ "]"]
          | none => [])
      ++ (match context.referredProduct with
          | some p => ["[Producto referido: " ++ p.productRetailerId ++ "]"]
          | none => [])
  String.intercalate "\n"
    [context.originalText,
      "\n---\nContexto:\n" ++ String.intercalate "\n" contextParts]

/-- The session-resolution head of `route`: derive the canonical user id and
session id, read the session, and create it when absent with the initial
state `{ "user:phone": senderId, groupId: context.groupId }`.  The service
`createSession` never raises (it catches backend failures itself), so the
surrounding try/catch of the source never leaves the session unset. -/
def resolveSession (enabled getFail createFail : Bool) (now : Int)
    (st : Store) (context : RouterMessageContext) : Store × Session :=
  let userId := normalizePhone context.senderId
  let sessionId := appName ++ ":" ++ userId
  let r1 := getSession enabled getFail st
    { appName := appName, userId := userId, sessionId := sessionId, config := none }
  match r1.2 with
  | some s => (r1.1, s)
  | none =>
    createSession enabled createFail now r1.1
      { appName := appName
        userId := userId
        sessionId := some sessionId
        state := some
          [("user:phone", JsVal.str context.senderId),
            ("groupId", jsOptStr context.groupId)] }

/-- The loop over the runner events: remember the last non-user author and
the content of the final response. -/
def processRunnerEvents (evs : List RunnerEvent) : String × String :=
  evs.foldl
    (fun acc ev =>
      let agentUsed :=
        if ev.author != "" && ev.author != "user" then ev.author else acc.1
      let responseText := if ev.isFinal then ev.content else acc.2
      (agentUsed, responseText))
    ("orchestrator", "")

/-- The fixed fallback text of the ERROR branch of `route`. -/
def fallbackResponseText : String :=
  "Ocurrió un error procesando tu mensaje. Por favor intenta de nuevo o escribe \"ayuda\" para ver las opciones disponibles."

/-- `route(context)`: resolve or create the session, delegate (the external
run is modelled by its outcome: a list of runner events, or the exception it
threw), classify the intent, re-read the session for the state snapshot, and
return the structured result; any exception thrown during delegation is
caught and answered with the fixed fallback.  The embedding is a total
function: no exception escapes. -/
def route (enabled getFail createFail get2Fail : Bool) (now : Int)
    (st : Store) (runnerOutcome : Except String (List RunnerEvent))
    (context : RouterMessageContext) : Store × OrchestrationResult :=
  let userId := normalizePhone context.senderId
  let sessionId := appName ++ ":" ++ userId
  let r1 := resolveSession enabled getFail createFail now st context
  match runnerOutcome with
  | Except.error _ =>
    (r1.1,
      { intent := .UNKNOWN
        responseText := fallbackResponseText
        agentUsed := "orchestrator"
        sessionState := none })
  | Except.ok evs =>
    let (agentUsed, responseText) := processRunnerEvents evs
    let intent := detectIntent context.originalText responseText
    let r2 := getSession enabled get2Fail r1.1
      { appName := appName, userId := userId, sessionId := sessionId, config := none }
    (r2.1,
      { intent := intent
        responseText := responseText
        agentUsed := agentUsed
        sessionState := r2.2.map (·.state) })

/-! ## Derived notions used by the verification -/

/-- No entry of the state lies in the ephemeral namespace. -/
def stateCleanB (m : StateMap) : Bool := m.all fun kv => !isTempKey kv.1

/-- Every session mirrored in the in-memory map has clean state. -/
def cacheCleanB (c : List (String × Session)) : Bool :=
  c.all fun kv => stateCleanB kv.2.state

/-- Cleanliness of an optional session result. -/
def optClean : Option Session → Bool
  | some s => stateCleanB s.state
  | none => true

/-- Iterate the service `appendEvent` over a sequence of events, each with
its own backend-failure flag, threading the store and the session object. -/
def appendRun (enabled : Bool) (now : Int) (st : Store) (s : Session) :
    List (Bool × Event) → Store × Session
  | [] => (st, s)
  | (fail, e) :: rest =>
    let r := appendEvent enabled fail now st s e
    appendRun enabled now r.1 r.2.1 rest

/-- The left-fold the spec states: apply, in append order, the
non-ephemeral entries of each event delta over an initial state. -/
def specFoldNonEphemeral (init : StateMap) (events : List Event) : StateMap :=
  events.foldl
    (fun acc e => applyDelta acc (e.stateDelta.filter fun kv => !isTempKey kv.1))
    init

/-! ## Theorems -/

theorem stripTempState_clean (m : StateMap) :
    stateCleanB (stripTempState m) = true := by
  simp [stateCleanB, stripTempState, List.all_eq_true, List.mem_filter]

theorem stripTempState_of_clean {m : StateMap} (h : stateCleanB m = true) :
    stripTempState m = m := by
  simp only [stateCleanB, List.all_eq_true] at h
  exact List.filter_eq_self.mpr h

theorem mapSet_clean {m : StateMap} {k : String} {v : JsVal}
    (hm : stateCleanB m = true) (hk : isTempKey k = false) :
    stateCleanB (mapSet m k v) = true := by
  simp only [stateCleanB, List.all_eq_true] at hm ⊢
  unfold mapSet
  split
  · intro kv hkv
    simp only [List.mem_map] at hkv
    obtain ⟨kv0, hkv0, heq⟩ := hkv
    by_cases hc : kv0.1 == k
    · simp [hc] at heq; subst heq; simp [hk]
    · simp [hc] at heq; subst heq; exact hm kv0 hkv0
  · intro kv hkv
    rcases List.mem_append.mp hkv with h1 | h1
    · exact hm kv h1
    · simp at h1; subst h1; simp [hk]

theorem cacheCleanB_mapSet {c : List (String × Session)} {k : String}
    {s : Session} (hc : cacheCleanB c = true)
    (hs : stateCleanB s.state = true) :
    cacheCleanB (mapSet c k s) = true := by
  simp only [cacheCleanB, List.all_eq_true] at hc ⊢
  unfold mapSet
  split
  · intro kv hkv
    simp only [List.mem_map] at hkv
    obtain ⟨kv0, hkv0, heq⟩ := hkv
    by_cases hx : kv0.1 == k
    · simp [hx] at heq; subst heq; exact hs
    · simp [hx] at heq; subst heq; exact hc kv0 hkv0
  · intro kv hkv
    rcases List.mem_append.mp hkv with h1 | h1
    · exact hc kv h1
    · simp at h1; subst h1; exact hs

theorem mapGet_mem {α : Type} {c : List (String × α)} {k : String} {v : α}
    (h : mapGet c k = some v) : ∃ kv ∈ c, kv.2 = v := by
  unfold mapGet at h
  cases hf : c.find? (fun kv => kv.1 == k) with
  | none => simp [hf] at h
  | some kv =>
    refine ⟨kv, List.mem_of_find?_eq_some hf, ?_⟩
    simp [hf] at h
    exact h

theorem applyGetConfig_state (s : Session) (c : Option GetSessionConfig) :
    (applyGetConfig s c).state = s.state := by
  unfold applyGetConfig
  cases c with
  | none => rfl
  | some cfg =>
    dsimp only
    repeat' split
    all_goals rfl

theorem applyDelta_clean {m : StateMap} {d : StateMap}
    (hm : stateCleanB m = true)
    (hd : ∀ kv ∈ d, isTempKey kv.1 = false) :
    stateCleanB (applyDelta m d) = true := by
  induction d generalizing m with
  | nil => exact hm
  | cons kv rest ih =>
    have hkv : isTempKey kv.1 = false := hd kv (List.mem_cons_self kv rest)
    have h1 : stateCleanB (mapSet m kv.1 kv.2) = true := mapSet_clean hm hkv
    have hrest : ∀ x ∈ rest, isTempKey x.1 = false := fun x hx =>
      hd x (List.mem_cons_of_mem kv hx)
    simpa [applyDelta] using ih h1 hrest

theorem filtered_delta_nontemp (d : StateMap) :
    ∀ kv ∈ d.filter (fun kv => !isTempKey kv.1), isTempKey kv.1 = false := by
  intro kv hkv
  have := List.of_mem_filter hkv
  simpa using this

theorem appendEventSession_state {s : Session} {e : Event}
    (h : stateCleanB s.state = true) :
    (appendEventSession s e).state
      = applyDelta s.state (e.stateDelta.filter fun kv => !isTempKey kv.1) := by
  have hclean : stateCleanB
      (applyDelta s.state (e.stateDelta.filter fun kv => !isTempKey kv.1)) = true :=
    applyDelta_clean h (filtered_delta_nontemp e.stateDelta)
  simpa [appendEventSession, baseAppendEvent] using stripTempState_of_clean hclean

theorem appendEventSession_clean (s : Session) (e : Event) :
    stateCleanB (appendEventSession s e).state = true := by
  simpa [appendEventSession, baseAppendEvent] using
    stripTempState_clean (applyDelta s.state (e.stateDelta.filter fun kv => !isTempKey kv.1))

theorem appendEventSession_lastUpdateTime (s : Session) (e : Event) :
    (appendEventSession s e).lastUpdateTime = e.timestamp := rfl

theorem appendEventSession_events (s : Session) (e : Event) :
    (appendEventSession s e).events = s.events ++ [e] := rfl

theorem appendEventSession_id (s : Session) (e : Event) :
    (appendEventSession s e).id = s.id := rfl

theorem cacheClean_mapGet {c : List (String × Session)} {k : String}
    {s : Session} (hc : cacheCleanB c = true) (h : mapGet c k = some s) :
    stateCleanB s.state = true := by
  obtain ⟨kv, hkv, rfl⟩ := mapGet_mem h
  simp only [cacheCleanB, List.all_eq_true] at hc
  exact hc kv hkv

theorem fallbackGet_optClean {st : Store} {req : GetSessionRequest}
    (hc : cacheCleanB st.cache = true) :
    optClean (fallbackGet st req).2 = true := by
  unfold fallbackGet
  split
  · next cached hm =>
    simp only [optClean]
    rw [applyGetConfig_state]
    exact cacheClean_mapGet hc hm
  · rfl

theorem fallbackGet_store {st : Store} {req : GetSessionRequest} :
    (fallbackGet st req).1 = st := by
  unfold fallbackGet
  split <;> rfl

theorem getSession_optClean {enabled fail : Bool} {st : Store}
    {req : GetSessionRequest} (hc : cacheCleanB st.cache = true) :
    optClean (getSession enabled fail st req).2 = true := by
  unfold getSession
  split
  · split
    · simp only [optClean]
      rw [applyGetConfig_state]
      simpa [rowToSession] using stripTempState_clean _
    · exact fallbackGet_optClean hc
  · exact fallbackGet_optClean hc

theorem getSession_cacheClean {enabled fail : Bool} {st : Store}
    {req : GetSessionRequest} (hc : cacheCleanB st.cache = true) :
    cacheCleanB (getSession enabled fail st req).1.cache = true := by
  unfold getSession
  split
  · split
    · refine cacheCleanB_mapSet hc ?_
      rw [applyGetConfig_state]
      simpa [rowToSession] using stripTempState_clean _
    · rw [fallbackGet_store]; exact hc
  · rw [fallbackGet_store]; exact hc

theorem appendEvent_session (enabled fail : Bool) (now : Int) (st : Store)
    (s : Session) (e : Event) :
    (appendEvent enabled fail now st s e).2.1 = appendEventSession s e := rfl

theorem appendRun_state {enabled : Bool} {now : Int} {st : Store} {s : Session}
    (steps : List (Bool × Event)) (h : stateCleanB s.state = true) :
    (appendRun enabled now st s steps).2.state
      = specFoldNonEphemeral s.state (steps.map Prod.snd) := by
  induction steps generalizing st s with
  | nil => rfl
  | cons step rest ih =>
    obtain ⟨fail, e⟩ := step
    have hs1 : (appendEventSession s e).state
        = applyDelta s.state (e.stateDelta.filter fun kv => !isTempKey kv.1) :=
      appendEventSession_state h
    have hclean : stateCleanB (appendEventSession s e).state = true :=
      appendEventSession_clean s e
    simp only [appendRun, appendEvent_session]
    rw [ih hclean, hs1]
    rfl

/-- C1: every session value returned by `createSession`, `getSession` or
`appendEvent` has a state mapping free of "temp:"-namespaced keys, even when
the underlying durable row was injected with such keys, and every such
operation leaves the in-memory mirror free of them as well (for any
reachable, i.e. clean, mirror). -/
theorem claim_C1 (enabled f1 f2 f3 : Bool) (now : Int) (st : Store)
    (reqC : CreateSessionRequest) (reqG : GetSessionRequest)
    (s : Session) (e : Event)
    (hc : cacheCleanB st.cache = true) :
    stateCleanB (createSession enabled f1 now st reqC).2.state = true
    ∧ cacheCleanB (createSession enabled f1 now st reqC).1.cache = true
    ∧ optClean (getSession enabled f2 st reqG).2 = true
    ∧ cacheCleanB (getSession enabled f2 st reqG).1.cache = true
    ∧ stateCleanB (appendEvent enabled f3 now st s e).2.1.state = true
    ∧ cacheCleanB (appendEvent enabled f3 now st s e).1.cache = true := by
  refine ⟨?_, ?_, ?_, ?_, ?_, ?_⟩
  · simpa [createSession] using stripTempState_clean (reqC.state.getD [])
  · simp only [createSession]
    exact cacheCleanB_mapSet hc
      (by simpa using stripTempState_clean (reqC.state.getD []))
  · exact getSession_optClean hc
  · exact getSession_cacheClean hc
  · simpa [appendEvent_session] using appendEventSession_clean s e
  · simp only [appendEvent]
    exact cacheCleanB_mapSet hc (appendEventSession_clean s e)

/-- Witness for C1 at a concrete input: a durable row injected with a
"temp:" key, a clean one-entry mirror, and an event whose delta carries a
"temp:" key. -/
theorem claim_C1_witness :
    cacheCleanB [("pasatanda:1",
      { id := "pasatanda:1", appName := "pasatanda", userId := "1",
        state := [("user:phone", JsVal.str "1")], events := [],
        lastUpdateTime := 0 })] = true
    ∧ optClean (getSession true false
        { db := [{ session_id := "s1", app_name := "pasatanda", user_id := "1",
                   events := [],
                   state := [("temp:x", JsVal.num 1), ("a", JsVal.num 2)],
                   last_update_time := 0, created_at := 0 }],
          cache := [("pasatanda:1",
            { id := "pasatanda:1", appName := "pasatanda", userId := "1",
              state := [("user:phone", JsVal.str "1")], events := [],
              lastUpdateTime := 0 })] }
        { appName := "pasatanda", userId := "1", sessionId := "s1",
          config := none }).2 = true := by
  refine ⟨by decide, ?_⟩
  exact (claim_C1 true false false false 0
    { db := [{ session_id := "s1", app_name := "pasatanda", user_id := "1",
               events := [],
               state := [("temp:x", JsVal.num 1), ("a", JsVal.num 2)],
               last_update_time := 0, created_at := 0 }],
      cache := [("pasatanda:1",
        { id := "pasatanda:1", appName := "pasatanda", userId := "1",
          state := [("user:phone", JsVal.str "1")], events := [],
          lastUpdateTime := 0 })] }
    { appName := "pasatanda", userId := "1", sessionId := none, state := none }
    { appName := "pasatanda", userId := "1", sessionId := "s1", config := none }
    { id := "pasatanda:1", appName := "pasatanda", userId := "1",
      state := [], events := [], lastUpdateTime := 0 }
    { author := "user", timestamp := 5, stateDelta := [("temp:y", JsVal.num 3)] }
    (by decide)).2.2.1

/-- C2: after appending any sequence of events through the service, the
session state equals the left-fold of the non-ephemeral delta entries in
append order over the initial state, for every choice of per-append backend
failure; each single `appendEvent` also sets `lastUpdateTime` to the event
timestamp and returns the event itself. -/
theorem claim_C2 (enabled fail : Bool) (now : Int) (st : Store) (s : Session)
    (e : Event) (steps : List (Bool × Event))
    (h : stateCleanB s.state = true) :
    (appendRun enabled now st s steps).2.state
      = specFoldNonEphemeral s.state (steps.map Prod.snd)
    ∧ (appendEvent enabled fail now st s e).2.2 = e
    ∧ (appendEvent enabled fail now st s e).2.1.lastUpdateTime = e.timestamp := by
  exact ⟨appendRun_state steps h, rfl, rfl⟩

/-- Witness for C2: two appends, the first with the durable backend failing,
with overlapping keys and an ephemeral key in the second delta. -/
theorem claim_C2_witness :
    (appendRun true 99
      { db := [], cache := [] }
      { id := "pasatanda:1", appName := "pasatanda", userId := "1",
        state := [("a", JsVal.num 1)], events := [], lastUpdateTime := 0 }
      [(true, { author := "agent", timestamp := 10,
                stateDelta := [("a", JsVal.num 2), ("b", JsVal.str "x")] }),
       (false, { author := "agent", timestamp := 20,
                 stateDelta := [("temp:scratch", JsVal.num 9), ("b", JsVal.str "y")] })]).2.state
      = [("a", JsVal.num 2), ("b", JsVal.str "y")]
    ∧ (appendRun true 99
      { db := [], cache := [] }
      { id := "pasatanda:1", appName := "pasatanda", userId := "1",
        state := [("a", JsVal.num 1)], events := [], lastUpdateTime := 0 }
      [(true, { author := "agent", timestamp := 10,
                stateDelta := [("a", JsVal.num 2), ("b", JsVal.str "x")] }),
       (false, { author := "agent", timestamp := 20,
                 stateDelta := [("temp:scratch", JsVal.num 9), ("b", JsVal.str "y")] })]).2.state
      = specFoldNonEphemeral [("a", JsVal.num 1)]
          [{ author := "agent", timestamp := 10,
             stateDelta := [("a", JsVal.num 2), ("b", JsVal.str "x")] },
           { author := "agent", timestamp := 20,
             stateDelta := [("temp:scratch", JsVal.num 9), ("b", JsVal.str "y")] }] := by
  refine ⟨by decide, ?_⟩
  exact (claim_C2 true false 99
    { db := [], cache := [] }
    { id := "pasatanda:1", appName := "pasatanda", userId := "1",
      state := [("a", JsVal.num 1)], events := [], lastUpdateTime := 0 }
    { author := "agent", timestamp := 10, stateDelta := [] }
    [(true, { author := "agent", timestamp := 10,
              stateDelta := [("a", JsVal.num 2), ("b", JsVal.str "x")] }),
     (false, { author := "agent", timestamp := 20,
               stateDelta := [("temp:scratch", JsVal.num 9), ("b", JsVal.str "y")] })]
    (by decide)).1

/-- C3: when the delegation run throws, `route` catches the exception and
returns intent UNKNOWN, handler "orchestrator" and the fixed non-empty
fallback text; being a total function of the thrown error, no exception
escapes. -/
theorem claim_C3 (enabled getFail createFail get2Fail : Bool) (now : Int)
    (st : Store) (err : String) (context : RouterMessageContext) :
    (route enabled getFail createFail get2Fail now st
        (Except.error err) context).2
      = { intent := .UNKNOWN
          responseText := fallbackResponseText
          agentUsed := "orchestrator"
          sessionState := none }
    ∧ fallbackResponseText ≠ "" := by
  exact ⟨rfl, by decide⟩

/-- C8: the structured token "tanda:configure:42" classifies as
CONFIGURE_TANDA for every handler response text. -/
theorem claim_C8 (r : String) :
    detectIntent "tanda:configure:42" r = .CONFIGURE_TANDA := rfl

/-- C9: the free text "quiero crear una nueva tanda" classifies as
CREATE_GROUP for every handler response text. -/
theorem claim_C9 (r : String) :
    detectIntent "quiero crear una nueva tanda" r = .CREATE_GROUP := rfl

theorem mem_prune_iff {ref : Int} {c : List (String × Int)} {kv : String × Int} :
    kv ∈ pruneProcessedMessages ref c
      ↔ kv ∈ c ∧ ¬(ref - kv.2 > processedMessageTtlMs) := by
  simp [pruneProcessedMessages, List.mem_filter]

theorem isDup_insert (now : Int) {id : String} {c : List (String × Int)}
    (hid : (id == "") = false)
    (hany : ((pruneProcessedMessages now c).any fun kv => kv.1 == id) = false) :
    isDuplicateMessage now (some id) c
      = (false, pruneProcessedMessages now c ++ [(id, now)]) := by
  simp [isDuplicateMessage, hid, hany]

theorem isDup_fresh (now : Int) {id : String} {c : List (String × Int)}
    (hid : id ≠ "") (hfresh : ∀ kv ∈ c, kv.1 ≠ id) :
    isDuplicateMessage now (some id) c
      = (false, pruneProcessedMessages now c ++ [(id, now)]) := by
  refine isDup_insert now (beq_eq_false_iff_ne.mpr hid) ?_
  simp only [List.any_eq_false]
  intro kv hkv
  have := hfresh kv (mem_prune_iff.mp hkv).1
  simpa using this

theorem isDup_present {now : Int} {id : String} {c : List (String × Int)}
    (hid : id ≠ "") (kv : String × Int) (hkv : kv ∈ c) (hk : kv.1 = id)
    (hlive : ¬(now - kv.2 > processedMessageTtlMs)) :
    (isDuplicateMessage now (some id) c).1 = true := by
  have hide : (id == "") = false := beq_eq_false_iff_ne.mpr hid
  have hany : ((pruneProcessedMessages now c).any fun x => x.1 == id) = true := by
    simp only [List.any_eq_true]
    exact ⟨kv, mem_prune_iff.mpr ⟨hkv, hlive⟩, by simp [hk]⟩
  simp [isDuplicateMessage, hide, hany]

/-- C4: with the clock explicit, the first sighting of an id answers false
and records it; any call within the TTL answers true; a call after the TTL
answers false again exactly once, the stale entry having been pruned and the
id re-recorded at the new time; a call within the fresh window answers true
again. -/
theorem claim_C4 (c : List (String × Int)) (id : String) (t1 t2 t3 t4 : Int)
    (hfresh : ∀ kv ∈ c, kv.1 ≠ id) (hid : id ≠ "")
    (h2 : t2 - t1 ≤ processedMessageTtlMs)
    (h3 : t3 - t1 > processedMessageTtlMs)
    (h4 : t4 - t3 ≤ processedMessageTtlMs) :
    (isDuplicateMessage t1 (some id) c).1 = false
    ∧ (id, t1) ∈ (isDuplicateMessage t1 (some id) c).2
    ∧ (isDuplicateMessage t2 (some id)
        (isDuplicateMessage t1 (some id) c).2).1 = true
    ∧ (isDuplicateMessage t3 (some id)
        (isDuplicateMessage t1 (some id) c).2).1 = false
    ∧ (id, t3) ∈ (isDuplicateMessage t3 (some id)
        (isDuplicateMessage t1 (some id) c).2).2
    ∧ (isDuplicateMessage t4 (some id)
        (isDuplicateMessage t3 (some id)
          (isDuplicateMessage t1 (some id) c).2).2).1 = true := by
  have hstep1 := isDup_fresh t1 hid hfresh
  have hmem1 : (id, t1) ∈ (isDuplicateMessage t1 (some id) c).2 := by
    rw [hstep1]
    exact List.mem_append_right _ (List.mem_singleton.mpr rfl)
  -- the cache after the first call
  have hfresh1 : ∀ kv ∈ (isDuplicateMessage t1 (some id) c).2,
      kv.1 = id → kv.2 = t1 := by
    rw [hstep1]
    intro kv hkv hk
    rcases List.mem_append.mp hkv with hmem | hmem
    · exact absurd hk (hfresh kv (mem_prune_iff.mp hmem).1)
    · simp only [List.mem_singleton] at hmem
      simp [hmem]
  have hres2 : (isDuplicateMessage t2 (some id)
      (isDuplicateMessage t1 (some id) c).2).1 = true :=
    isDup_present hid (id, t1) hmem1 rfl (by simpa using not_lt.mpr h2)
  -- the stale entry does not survive pruning at t3, and no other entry has the key
  have hfresh13 : ∀ kv ∈ (isDuplicateMessage t1 (some id) c).2,
      ¬(t3 - kv.2 > processedMessageTtlMs) → kv.1 ≠ id := by
    intro kv hkv hlive hk
    have := hfresh1 kv hkv hk
    rw [this] at hlive
    exact hlive h3
  have hany3 : ((pruneProcessedMessages t3
      (isDuplicateMessage t1 (some id) c).2).any fun x => x.1 == id) = false := by
    simp only [List.any_eq_false]
    intro kv hkv
    obtain ⟨hmem, hlive⟩ := mem_prune_iff.mp hkv
    simpa using hfresh13 kv hmem hlive
  have hide : (id == "") = false := beq_eq_false_iff_ne.mpr hid
  have hstep3 : isDuplicateMessage t3 (some id)
      (isDuplicateMessage t1 (some id) c).2
      = (false, pruneProcessedMessages t3 (isDuplicateMessage t1 (some id) c).2
          ++ [(id, t3)]) := isDup_insert t3 hide hany3
  have hmem3 : (id, t3) ∈ (isDuplicateMessage t3 (some id)
      (isDuplicateMessage t1 (some id) c).2).2 := by
    rw [hstep3]
    exact List.mem_append_right _ (List.mem_singleton.mpr rfl)
  have hres4 : (isDuplicateMessage t4 (some id)
      (isDuplicateMessage t3 (some id)
        (isDuplicateMessage t1 (some id) c).2).2).1 = true :=
    isDup_present hid (id, t3) hmem3 rfl (by simpa using not_lt.mpr h4)
  refine ⟨by rw [hstep1], hmem1, hres2, by rw [hstep3], hmem3, hres4⟩

/-- Witness for C4 on an empty cache: first sighting at time 0, a repeat at
the TTL boundary, a stale repeat one past the TTL, and a fresh repeat. -/
theorem claim_C4_witness :
    (isDuplicateMessage 0 (some "wamid.1") []).1 = false
    ∧ (isDuplicateMessage 600000 (some "wamid.1")
        (isDuplicateMessage 0 (some "wamid.1") []).2).1 = true
    ∧ (isDuplicateMessage 600001 (some "wamid.1")
        (isDuplicateMessage 0 (some "wamid.1") []).2).1 = false
    ∧ (isDuplicateMessage 600002 (some "wamid.1")
        (isDuplicateMessage 600001 (some "wamid.1")
          (isDuplicateMessage 0 (some "wamid.1") []).2).2).1 = true := by
  have h := claim_C4 [] "wamid.1" 0 600000 600001 600002
    (by intro kv hkv; cases hkv) (by decide)
    (by decide) (by decide) (by decide)
  exact ⟨h.1, h.2.2.1, h.2.2.2.1, h.2.2.2.2.2⟩

theorem fallbackGet_eq (st : Store) (req : GetSessionRequest) :
    fallbackGet st req
      = (st, (mapGet st.cache req.sessionId).map
          fun cached => applyGetConfig cached req.config) := by
  unfold fallbackGet
  cases h : mapGet st.cache req.sessionId <;> simp [h]

/-- C5: with every durable-backend call failing, no operation raises (each
embedding is a total function) and the store degrades to cache-only
behavior: `createSession` still returns the fresh session and mirrors it,
`getSession` answers from the in-memory map or with absence, `appendEvent`
still applies the delta and refreshes the mirror, `deleteSession` still
drops the mirror entry, and `listSessions` summarizes the in-memory
sessions; the durable table is never changed. -/
theorem claim_C5 (enabled : Bool) (now : Int) (st : Store)
    (reqC : CreateSessionRequest) (reqG : GetSessionRequest)
    (s : Session) (e : Event) (sid appN uid : String) :
    (createSession enabled true now st reqC).1.db = st.db
    ∧ (createSession enabled true now st reqC).2
        = { id := reqC.sessionId.getD (reqC.appName ++ ":" ++ reqC.userId)
            appName := reqC.appName
            userId := reqC.userId
            state := stripTempState (reqC.state.getD [])
            events := []
            lastUpdateTime := now }
    ∧ (createSession enabled true now st reqC).1.cache
        = mapSet st.cache (reqC.sessionId.getD (reqC.appName ++ ":" ++ reqC.userId))
            (createSession enabled true now st reqC).2
    ∧ (getSession enabled true st reqG).1 = st
    ∧ (getSession enabled true st reqG).2
        = (mapGet st.cache reqG.sessionId).map
            (fun cached => applyGetConfig cached reqG.config)
    ∧ (appendEvent enabled true now st s e).1.db = st.db
    ∧ (appendEvent enabled true now st s e).2.1 = appendEventSession s e
    ∧ (appendEvent enabled true now st s e).1.cache
        = mapSet st.cache s.id (appendEventSession s e)
    ∧ (appendEvent enabled true now st s e).2.2 = e
    ∧ (deleteSession enabled true st sid).db = st.db
    ∧ (deleteSession enabled true st sid).cache = mapDelete st.cache sid
    ∧ listSessions enabled true st appN uid
        = (st.cache.filter fun kv =>
            kv.2.appName == appN && kv.2.userId == uid).map
            fun kv => summarize kv.1 kv.2 := by
  refine ⟨?_, ?_, ?_, ?_, ?_, ?_, ?_, ?_, ?_, ?_, ?_, ?_⟩
  · simp [createSession]
  · simp [createSession]
  · simp [createSession]
  · rw [show getSession enabled true st reqG = fallbackGet st reqG by
      simp [getSession], fallbackGet_eq]
  · rw [show getSession enabled true st reqG = fallbackGet st reqG by
      simp [getSession], fallbackGet_eq]
  · simp [appendEvent]
  · simp [appendEvent]
  · simp [appendEvent, appendEventSession, baseAppendEvent]
  · simp [appendEvent]
  · simp [deleteSession]
  · simp [deleteSession]
  · simp [listSessions]

theorem findReplace_of_any {α : Type} {m : List (String × α)} {k : String}
    {v : α} (h : (m.any fun kv => kv.1 == k) = true) :
    (m.map fun kv => if kv.1 == k then (k, v) else kv).find?
      (fun kv => kv.1 == k) = some (k, v) := by
  induction m with
  | nil => simp at h
  | cons kv rest ih =>
    by_cases hh : (kv.1 == k) = true
    · simp [List.find?, hh]
    · have hh' : (kv.1 == k) = false := by simpa using hh
      have h' : (rest.any fun kv => kv.1 == k) = true := by
        simpa [List.any_cons, hh'] using h
      have hhead : (if kv.1 == k then (k, v) else kv) = kv := by simp [hh']
      simp only [List.map, hhead]
      simp only [List.find?, hh']
      exact ih h'

theorem mapGet_mapSet {α : Type} (m : List (String × α)) (k : String) (v : α) :
    mapGet (mapSet m k v) k = some v := by
  unfold mapSet mapGet
  split
  · next h =>
    rw [findReplace_of_any h]
    rfl
  · next h =>
    have hnone : m.find? (fun kv => kv.1 == k) = none := by
      rw [List.find?_eq_none]
      intro kv hkv hk
      apply h
      rw [List.any_eq_true]
      exact ⟨kv, hkv, hk⟩
    rw [List.find?_append, hnone]
    simp [List.find?]

/-- C6 counterexample: a durable read with a "most recent 1 event" config
replaces the in-memory mirror entry by the filtered copy, so the mirror
does not keep its full two-event log. -/
theorem claim_C6_counterexample :
    (mapGet ((getSession true false
        { db := [{ session_id := "pasatanda:1", app_name := "pasatanda",
                   user_id := "1",
                   events := [{ author := "user", timestamp := 1, stateDelta := [] },
                              { author := "agent", timestamp := 2, stateDelta := [] }],
                   state := [], last_update_time := 2, created_at := 0 }],
          cache := [("pasatanda:1",
            { id := "pasatanda:1", appName := "pasatanda", userId := "1",
              state := [],
              events := [{ author := "user", timestamp := 1, stateDelta := [] },
                         { author := "agent", timestamp := 2, stateDelta := [] }],
              lastUpdateTime := 2 })] }
        { appName := "pasatanda", userId := "1", sessionId := "pasatanda:1",
          config := some { numRecentEvents := some 1, afterTimestamp := none } }).1.cache)
      "pasatanda:1").map (fun s => s.events.length) = some 1
    ∧ (mapGet
        [("pasatanda:1",
          ({ id := "pasatanda:1", appName := "pasatanda", userId := "1",
             state := [],
             events := [{ author := "user", timestamp := 1, stateDelta := [] },
                        { author := "agent", timestamp := 2, stateDelta := [] }],
             lastUpdateTime := 2 } : Session))]
        "pasatanda:1").map (fun s => s.events.length) = some 2 := by
  constructor <;> decide

/-- C6 amended: `getSession` applies the read config to a copy and returns
the filtered copy, leaving the state mapping intact and never changing the
durable rows; on a durable hit the in-memory mirror entry is replaced by
that filtered copy, while on the fallback path the store is unchanged and
the cached copy is filtered only in the returned value. -/
theorem claim_C6_amended (enabled fail : Bool) (st : Store)
    (req : GetSessionRequest) (row : AdkSessionRow)
    (henabled : (enabled && !fail) = true)
    (hrow : st.db.find? (fun r =>
        r.session_id == req.sessionId && r.app_name == req.appName) = some row) :
    (getSession enabled fail st req).1.db = st.db
    ∧ (getSession enabled fail st req).2
        = some (applyGetConfig (rowToSession row) req.config)
    ∧ (getSession enabled fail st req).1.cache
        = mapSet st.cache req.sessionId (applyGetConfig (rowToSession row) req.config)
    ∧ (applyGetConfig (rowToSession row) req.config).state
        = (rowToSession row).state
    ∧ (getSession enabled true st req).1 = st
    ∧ (getSession enabled true st req).2
        = (mapGet st.cache req.sessionId).map
            (fun cached => applyGetConfig cached req.config) := by
  refine ⟨?_, ?_, ?_, applyGetConfig_state _ _, ?_, ?_⟩
  · simp [getSession, henabled, hrow]
  · simp [getSession, henabled, hrow]
  · simp [getSession, henabled, hrow]
  · rw [show getSession enabled true st req = fallbackGet st req by
      simp [getSession], fallbackGet_eq]
  · rw [show getSession enabled true st req = fallbackGet st req by
      simp [getSession], fallbackGet_eq]

/-- Witness for C6 amended: a one-row table and an empty mirror; the hit
returns the filtered copy and installs it in the mirror. -/
theorem claim_C6_amended_witness :
    (getSession true false
        { db := [{ session_id := "pasatanda:2", app_name := "pasatanda",
                   user_id := "2",
                   events := [{ author := "user", timestamp := 1, stateDelta := [] },
                              { author := "agent", timestamp := 2, stateDelta := [] }],
                   state := [("a", JsVal.num 1)], last_update_time := 2,
                   created_at := 0 }],
          cache := [] }
        { appName := "pasatanda", userId := "2", sessionId := "pasatanda:2",
          config := some { numRecentEvents := some 1, afterTimestamp := none } }).2
      = some (applyGetConfig
          (rowToSession
            { session_id := "pasatanda:2", app_name := "pasatanda",
              user_id := "2",
              events := [{ author := "user", timestamp := 1, stateDelta := [] },
                         { author := "agent", timestamp := 2, stateDelta := [] }],
              state := [("a", JsVal.num 1)], last_update_time := 2,
              created_at := 0 })
          (some { numRecentEvents := some 1, afterTimestamp := none })) := by
  exact (claim_C6_amended true false
    { db := [{ session_id := "pasatanda:2", app_name := "pasatanda",
               user_id := "2",
               events := [{ author := "user", timestamp := 1, stateDelta := [] },
                          { author := "agent", timestamp := 2, stateDelta := [] }],
               state := [("a", JsVal.num 1)], last_update_time := 2,
               created_at := 0 }],
      cache := [] }
    { appName := "pasatanda", userId := "2", sessionId := "pasatanda:2",
      config := some { numRecentEvents := some 1, afterTimestamp := none } }
    { session_id := "pasatanda:2", app_name := "pasatanda", user_id := "2",
      events := [{ author := "user", timestamp := 1, stateDelta := [] },
                 { author := "agent", timestamp := 2, stateDelta := [] }],
      state := [("a", JsVal.num 1)], last_update_time := 2, created_at := 0 }
    (by decide) (by decide)).2.1

/-- C7 counterexample: for the sender id "+591 77242197" (not digits-only),
the session created by the routing head carries the raw sender id under
"user:phone"; no entry of its initial state equals the digits-only
canonical phone "59177242197", contradicting the claim that the initial
state seeds the canonical phone number. -/
theorem claim_C7_counterexample :
    (resolveSession false false false 0 { db := [], cache := [] }
        { senderId := "+591 77242197", senderName := none,
          groupId := some "g1", originalText := "hola",
          referredProduct := none }).2.userId = "59177242197"
    ∧ (resolveSession false false false 0 { db := [], cache := [] }
        { senderId := "+591 77242197", senderName := none,
          groupId := some "g1", originalText := "hola",
          referredProduct := none }).2.id = "pasatanda:59177242197"
    ∧ mapGet (resolveSession false false false 0 { db := [], cache := [] }
        { senderId := "+591 77242197", senderName := none,
          groupId := some "g1", originalText := "hola",
          referredProduct := none }).2.state "user:phone"
        = some (JsVal.str "+591 77242197")
    ∧ ((resolveSession false false false 0 { db := [], cache := [] }
        { senderId := "+591 77242197", senderName := none,
          groupId := some "g1", originalText := "hola",
          referredProduct := none }).2.state.all
        fun kv => !(kv.2 == JsVal.str "59177242197")) = true := by
  refine ⟨by decide, by decide, by decide, by decide⟩

/-- C7 amended: when the first session read comes back empty, the routing
head creates a session whose `userId` is the digits-only normalization of
the sender id, whose id is `appName ++ ":" ++ userId`, and whose initial
state seeds the raw sender id under "user:phone" together with the optional
group context under "groupId". -/
theorem claim_C7_amended (enabled getFail createFail : Bool) (now : Int)
    (st : Store) (context : RouterMessageContext)
    (habsent : (getSession enabled getFail st
        { appName := appName
          userId := normalizePhone context.senderId
          sessionId := appName ++ ":" ++ normalizePhone context.senderId
          config := none }).2 = none) :
    (resolveSession enabled getFail createFail now st context).2
      = { id := appName ++ ":" ++ normalizePhone context.senderId
          appName := appName
          userId := normalizePhone context.senderId
          state := [("user:phone", JsVal.str context.senderId),
                    ("groupId", jsOptStr context.groupId)]
          events := []
          lastUpdateTime := now } := by
  have hstrip : stripTempState
      [("user:phone", JsVal.str context.senderId),
        ("groupId", jsOptStr context.groupId)]
      = [("user:phone", JsVal.str context.senderId),
          ("groupId", jsOptStr context.groupId)] := by
    have h1 : isTempKey "user:phone" = false := by decide
    have h2 : isTempKey "groupId" = false := by decide
    simp [stripTempState, h1, h2]
  simp only [resolveSession]
  rw [habsent]
  simp [createSession, hstrip]

/-- Witness for C7 amended: disabled backend and empty mirror, so the first
read is empty and the created session is returned. -/
theorem claim_C7_amended_witness :
    (resolveSession false false false 7 { db := [], cache := [] }
        { senderId := "59171234567", senderName := some "Ana",
          groupId := none, originalText := "ayuda",
          referredProduct := none }).2
      = { id := "pasatanda:59171234567"
          appName := "pasatanda"
          userId := "59171234567"
          state := [("user:phone", JsVal.str "59171234567"),
                    ("groupId", JsVal.undef)]
          events := []
          lastUpdateTime := 7 } := by
  have h := claim_C7_amended false false false 7 { db := [], cache := [] }
    { senderId := "59171234567", senderName := some "Ana",
      groupId := none, originalText := "ayuda", referredProduct := none }
    (by decide)
  simpa using h

/-- C10 (implicit): `createSession` on an id that already has a durable row
does not fail and does not keep the old session: the conflicting row is
updated in place — its event log reset to empty, its state reset to the
ephemeral-stripped (and serialized) initial state, its update time moved —
with no row added, and the in-memory mirror entry is unconditionally
replaced by the fresh empty session. -/
theorem claim_C10 (now : Int) (st : Store) (reqC : CreateSessionRequest)
    (old : AdkSessionRow) (hmem : old ∈ st.db)
    (hid : (old.session_id
      == reqC.sessionId.getD (reqC.appName ++ ":" ++ reqC.userId)) = true) :
    (createSession true false now st reqC).2.events = []
    ∧ (createSession true false now st reqC).2.state
        = stripTempState (reqC.state.getD [])
    ∧ (createSession true false now st reqC).1.db.length = st.db.length
    ∧ (∀ r ∈ (createSession true false now st reqC).1.db,
        (r.session_id
          == reqC.sessionId.getD (reqC.appName ++ ":" ++ reqC.userId)) = true →
          r.events = []
          ∧ r.state = jsonState (stripTempState (reqC.state.getD []))
          ∧ r.last_update_time = now)
    ∧ mapGet (createSession true false now st reqC).1.cache
        (reqC.sessionId.getD (reqC.appName ++ ":" ++ reqC.userId))
      = some (createSession true false now st reqC).2 := by
  have hany : (st.db.any fun q => q.session_id
      == reqC.sessionId.getD (reqC.appName ++ ":" ++ reqC.userId)) = true := by
    rw [List.any_eq_true]
    exact ⟨old, hmem, hid⟩
  refine ⟨rfl, rfl, ?_, ?_, ?_⟩
  · simp [createSession, upsertRow, hany]
  · intro r hr hrid
    simp only [createSession, upsertRow, hany, if_true, Bool.and_self,
      Bool.not_false, Bool.and_true] at hr
    obtain ⟨q, hq, rfl⟩ := List.mem_map.mp hr
    by_cases hq2 : (q.session_id
        == reqC.sessionId.getD (reqC.appName ++ ":" ++ reqC.userId)) = true
    · simp [hq2, jsonEvents]
    · rw [if_neg (by simpa using hq2)] at hrid ⊢
      exact absurd hrid hq2
  · simp only [createSession]
    exact mapGet_mapSet _ _ _

/-- Witness for C10: a one-row table with a non-empty event log for
"pasatanda:9"; recreating that session resets the row and replaces the
mirror entry. -/
theorem claim_C10_witness :
    (createSession true false 5
        { db := [{ session_id := "pasatanda:9", app_name := "pasatanda",
                   user_id := "9",
                   events := [{ author := "user", timestamp := 1,
                                stateDelta := [("old", JsVal.num 1)] }],
                   state := [("old", JsVal.num 1)], last_update_time := 1,
                   created_at := 0 }],
          cache := [] }
        { appName := "pasatanda", userId := "9", sessionId := none,
          state := some [("temp:z", JsVal.num 3), ("n", JsVal.num 2)] }).2.events
      = []
    ∧ (createSession true false 5
        { db := [{ session_id := "pasatanda:9", app_name := "pasatanda",
                   user_id := "9",
                   events := [{ author := "user", timestamp := 1,
                                stateDelta := [("old", JsVal.num 1)] }],
                   state := [("old", JsVal.num 1)], last_update_time := 1,
                   created_at := 0 }],
          cache := [] }
        { appName := "pasatanda", userId := "9", sessionId := none,
          state := some [("temp:z", JsVal.num 3), ("n", JsVal.num 2)] }).1.db.length
      = 1
    ∧ mapGet (createSession true false 5
        { db := [{ session_id := "pasatanda:9", app_name := "pasatanda",
                   user_id := "9",
                   events := [{ author := "user", timestamp := 1,
                                stateDelta := [("old", JsVal.num 1)] }],
                   state := [("old", JsVal.num 1)], last_update_time := 1,
                   created_at := 0 }],
          cache := [] }
        { appName := "pasatanda", userId := "9", sessionId := none,
          state := some [("temp:z", JsVal.num 3), ("n", JsVal.num 2)] }).1.cache
        "pasatanda:9"
      = some (createSession true false 5
        { db := [{ session_id := "pasatanda:9", app_name := "pasatanda",
                   user_id := "9",
                   events := [{ author := "user", timestamp := 1,
                                stateDelta := [("old", JsVal.num 1)] }],
                   state := [("old", JsVal.num 1)], last_update_time := 1,
                   created_at := 0 }],
          cache := [] }
        { appName := "pasatanda", userId := "9", sessionId := none,
          state := some [("temp:z", JsVal.num 3), ("n", JsVal.num 2)] }).2 := by
  have h := claim_C10 5
    { db := [{ session_id := "pasatanda:9", app_name := "pasatanda",
               user_id := "9",
               events := [{ author := "user", timestamp := 1,
                            stateDelta := [("old", JsVal.num 1)] }],
               state := [("old", JsVal.num 1)], last_update_time := 1,
               created_at := 0 }],
      cache := [] }
    { appName := "pasatanda", userId := "9", sessionId := none,
      state := some [("temp:z", JsVal.num 3), ("n", JsVal.num 2)] }
    { session_id := "pasatanda:9", app_name := "pasatanda", user_id := "9",
      events := [{ author := "user", timestamp := 1,
                   stateDelta := [("old", JsVal.num 1)] }],
      state := [("old", JsVal.num 1)], last_update_time := 1, created_at := 0 }
    (by decide) (by decide)
  exact ⟨h.1, h.2.2.1, h.2.2.2.2⟩

end PasaTanda
